import Mathlib

/-!
Verification development for the ACP-on-AgentCore WebSocket bridge
(`src/acp_agent_main.py`).

The development shallowly embeds the parts of the program the claims are
about:

* Python values produced by `json.loads` are modelled by the inductive
  type `Json` (JSON null maps to Python `None`, hence `Json.null` plays
  both roles).
* `StarletteWebSocketAdapter` (`read_message`, `write_message`, `close`)
  is modelled over an abstract underlying websocket whose receive/send
  outcomes are given by scripts.
* The message loop of `websocket_handler` (lines 210-293) is modelled by
  `runLoop`, a function from the list of inbound raw frames to the list of
  sent messages, an event trace, the agent invocations performed, and the
  final per-connection state; `runHandler` adds the `finally` cleanup
  block (lines 297-302).
* The external agent capability (`ACPDeepAgentBedrock`) is an opaque
  oracle: a record of pure functions, one per ACP method, each returning
  either a result or a raised exception (modelled as its message string).
-/

/-- A JSON value as produced by Python `json.loads`: JSON null becomes
Python `None`, objects become `dict` (insertion ordered), arrays become
`list`. `Json.null` therefore also stands for Python `None`. -/
inductive Json where
  | null : Json
  | bool (b : Bool) : Json
  | num (n : Int) : Json
  | str (s : String) : Json
  | arr (elems : List Json) : Json
  | obj (fields : List (String × Json)) : Json

/-- Field lookup in a decoded JSON object, i.e. Python `dict.get(key)`
returning `none` when the key is absent. -/
def lookupField : List (String × Json) → String → Option Json
  | [], _ => none
  | (k, v) :: rest, key => if k = key then some v else lookupField rest key

/-- Python `dict.get(key)` on a decoded message: `none` when the value is
not a dict or the key is absent. -/
def jGet (m : Json) (k : String) : Option Json :=
  match m with
  | .obj fs => lookupField fs k
  | _ => none

/-- Whether the value is a Python dict. -/
def Json.isObj : Json → Bool
  | .obj _ => true
  | _ => false

/-- Python truthiness of a decoded JSON value: `None`, `False`, `0`,
`""`, `[]` and `\x7b\x7d` are falsy, everything else truthy. -/
def truthy : Json → Bool
  | .null => false
  | .bool b => b
  | .num n => n != 0
  | .str s => s != ""
  | .arr xs => !xs.isEmpty
  | .obj fs => !fs.isEmpty

/-- Python `a or b`: `a` when truthy, otherwise `b`. This is how the
handler computes `params.get("session_id") or session_id`. -/
def pyOr (a b : Json) : Json := if truthy a then a else b

/-- A single-quote character, used by the Python `repr` of strings. -/
def pyQuote : String := String.singleton (Char.ofNat 39)

mutual

/-- Python `repr` of a decoded JSON value (string escaping elided; the
claims never depend on the precise text). -/
def pyRepr : Json → String
  | .null => "None"
  | .bool true => "True"
  | .bool false => "False"
  | .num n => toString n
  | .str s => pyQuote ++ s ++ pyQuote
  | .arr xs => "[" ++ pyReprList xs ++ "]"
  | .obj fs => "\x7b" ++ pyReprFields fs ++ "\x7d"

/-- Comma-joined `repr` of list elements. -/
def pyReprList : List Json → String
  | [] => ""
  | [x] => pyRepr x
  | x :: y :: xs => pyRepr x ++ ", " ++ pyReprList (y :: xs)

/-- Comma-joined `repr` of dict items. -/
def pyReprFields : List (String × Json) → String
  | [] => ""
  | [(k, v)] => pyQuote ++ k ++ pyQuote ++ ": " ++ pyRepr v
  | (k, v) :: y :: xs => pyQuote ++ k ++ pyQuote ++ ": " ++ pyRepr v ++ ", " ++ pyReprFields (y :: xs)

end

/-- Python `str` of a decoded JSON value: the string itself for strings,
`repr`-style text otherwise. Used for `str(prompt_messages)` and the
f-string `f"Unknown method: ..."`. -/
def pyStr : Json → String
  | .str s => s
  | j => pyRepr j

example : pyStr (.str "prompt") = "prompt" := rfl
example : truthy .null = false := rfl
example : truthy (.str "") = false := rfl
example : pyOr .null (.str "s") = .str "s" := rfl

/-- The result of a (non-raising) call into the external agent capability,
as seen by the bridge. The bridge inspects two aspects only: whether the
value is a `NewSessionResponse` (to read its `session_id`, line 236-237)
and `result.dict() if hasattr(result, "dict") else result` when serializing
(line 275). `raw` is a plain Python value without a `dict` method (its
serialization is itself); `newSession` is a `NewSessionResponse` carrying
its `session_id` attribute and its `dict()` serialization; `respObj` is any
other response object carrying its `dict()` serialization. -/
inductive AgentRet where
  | raw (j : Json) : AgentRet
  | newSession (sid : Json) (dict : Json) : AgentRet
  | respObj (dict : Json) : AgentRet

/-- Line 275: `result.dict() if hasattr(result, "dict") else result`. -/
def AgentRet.serialize : AgentRet → Json
  | .raw j => j
  | .newSession _ d => d
  | .respObj d => d

/-- The external agent capability (`ACPDeepAgentBedrock`), an opaque
oracle: one pure function per ACP method, returning either a result or a
raised exception modelled by its message string (`str(e)`). Field names
avoid the Python method names; the wire-level method strings appear only
in `dispatch`. -/
structure Agent where
  onInit : Json → Json → Json → Except String AgentRet
  onNewSession : Json → Json → Except String AgentRet
  onPrompt : List Json → Json → Except String AgentRet
  onSetSessionMode : Json → Json → Except String AgentRet
  onCancel : Json → Except String Unit

/-- One invocation of the agent capability performed by the bridge,
recording the wire method name and the `session_id` argument passed
(`Json.null` for the two methods that take none). -/
structure AgentCall where
  method : String
  sessionId : Json

/-- Python `method == "name"` where `method` is an arbitrary decoded
value (`message.get("method")`): true only when it is exactly that
string. -/
def isMethod (method : Json) (name : String) : Bool :=
  match method with
  | .str s => s = name
  | _ => false

/-- `TextContentBlock(type="text", text=t)` as its wire/object shape. -/
def mkTextBlock (t : Json) : Json :=
  .obj [("type", .str "text"), ("text", t)]

/-- Whether `msg.get("type") == "text"` holds, given the result of the
`type` lookup (Python equality with the string `"text"`). -/
def isTextType : Option Json → Bool
  | some (.str s) => s = "text"
  | _ => false

/-- One iteration of the conversion loop at lines 247-252: a dict with
`type == "text"` becomes a text block with `msg.get("text", "")`; any
other dict is skipped; a plain string becomes a text block; every other
value (number, list, bool, None) is skipped. -/
def blockOf : Json → Option Json
  | .obj fs =>
    if isTextType (lookupField fs "type") then
      some (mkTextBlock ((lookupField fs "text").getD (.str "")))
    else none
  | .str s => some (mkTextBlock (.str s))
  | _ => none

/-- Lines 241-252: normalize the `prompt` param. A non-list value is first
wrapped as `[ \x7b "type": "text", "text": str(value) \x7d ]`, then each
entry goes through `blockOf`. -/
def promptBlocks (promptParam : Json) : List Json :=
  let msgs : List Json :=
    match promptParam with
    | .arr xs => xs
    | j => [Json.obj [("type", .str "text"), ("text", .str (pyStr j))]]
  msgs.filterMap blockOf

/-- Outcome of routing one inbound call through the if/elif chain at
lines 224-270: the handler outcome (result or raised exception message),
the `session_id` local after the branch, and the agent invocations
performed. -/
structure DispatchOut where
  outcome : Except String AgentRet
  sessionId : Json
  calls : List AgentCall

/-- The exception message for Python `AttributeError` raised when
`params.get` is called on a non-dict value (text abstracted). -/
def attributeError : String := "AttributeError"

/-- Lines 224-270 of `websocket_handler`: route `method` with `params`,
given the current `session_id` local (`sid`) and the connection
`workspace_dir` (`wd`). Every raised exception becomes `.error` with its
message; an unknown method raises `ValueError(f"Unknown method: ...")`.
Param extraction mirrors `params.get(...)` including the `AttributeError`
when `params` is not a dict, and the `or session_id` fallback for
`prompt`, `set_session_mode` and `cancel`. -/
def dispatch (ag : Agent) (wd : String) (sid : Json) (method : Json) (params : Json) :
    DispatchOut :=
  if isMethod method "initialize" then
    match params with
    | .obj pfs =>
      let pv := (lookupField pfs "protocol_version").getD (.num 1)
      let cc := (lookupField pfs "client_capabilities").getD .null
      let ci := (lookupField pfs "client_info").getD .null
      ⟨ag.onInit pv cc ci, sid, [⟨"initialize", .null⟩]⟩
    | _ => ⟨.error attributeError, sid, []⟩
  else if isMethod method "new_session" then
    match params with
    | .obj pfs =>
      let cwd := (lookupField pfs "cwd").getD (.str wd)
      let mcp := (lookupField pfs "mcp_servers").getD (.arr [])
      match ag.onNewSession cwd mcp with
      | .ok (.newSession s d) => ⟨.ok (.newSession s d), s, [⟨"new_session", .null⟩]⟩
      | .ok (.raw j) => ⟨.ok (.raw j), sid, [⟨"new_session", .null⟩]⟩
      | .ok (.respObj d) => ⟨.ok (.respObj d), sid, [⟨"new_session", .null⟩]⟩
      | .error e => ⟨.error e, sid, [⟨"new_session", .null⟩]⟩
    | _ => ⟨.error attributeError, sid, []⟩
  else if isMethod method "prompt" then
    match params with
    | .obj pfs =>
      let blocks := promptBlocks ((lookupField pfs "prompt").getD (.arr []))
      let s := pyOr ((lookupField pfs "session_id").getD .null) sid
      ⟨ag.onPrompt blocks s, sid, [⟨"prompt", s⟩]⟩
    | _ => ⟨.error attributeError, sid, []⟩
  else if isMethod method "set_session_mode" then
    match params with
    | .obj pfs =>
      let modeId := (lookupField pfs "mode_id").getD .null
      let s := pyOr ((lookupField pfs "session_id").getD .null) sid
      ⟨ag.onSetSessionMode modeId s, sid, [⟨"set_session_mode", s⟩]⟩
    | _ => ⟨.error attributeError, sid, []⟩
  else if isMethod method "cancel" then
    match params with
    | .obj pfs =>
      let s := pyOr ((lookupField pfs "session_id").getD .null) sid
      match ag.onCancel s with
      | .ok _ => ⟨.ok (.raw (.obj [])), sid, [⟨"cancel", s⟩]⟩
      | .error e => ⟨.error e, sid, [⟨"cancel", s⟩]⟩
    | _ => ⟨.error attributeError, sid, []⟩
  else
    ⟨.error ("Unknown method: " ++ pyStr method), sid, []⟩

/-- Lines 273-277: the success response envelope. -/
def successResponse (r : AgentRet) (msgId : Json) : Json :=
  .obj [("jsonrpc", .str "2.0"), ("result", r.serialize), ("id", msgId)]

/-- Lines 284-292: the error response envelope, with the fixed code
-32603, `str(e)` as message, and the method echoed in `data`. -/
def errorResponse (e : String) (method : Json) (msgId : Json) : Json :=
  .obj [ ("jsonrpc", .str "2.0")
       , ("error", .obj [ ("code", .num (-32603))
                        , ("message", .str e)
                        , ("data", .obj [("method", method)]) ])
       , ("id", msgId) ]

/-- The `id` field of a message, as the handler reads it
(`message.get("id")`, line 218): Python `None` (= `Json.null`) when the
key is absent; also used to read the `id` a response carries. -/
def idField (m : Json) : Json := (jGet m "id").getD .null

/-- Whether a sent message is a well-formed response: exactly one of a
`result` field or an `error` field. -/
def wellFormedResponse (m : Json) : Bool :=
  ((jGet m "result").isSome && !(jGet m "error").isSome) ||
    ((jGet m "error").isSome && !(jGet m "result").isSome)

/-- The numeric `error.code` of a response, when present. -/
def errCodeOf (m : Json) : Option Int :=
  match jGet m "error" with
  | some err =>
    match jGet err "code" with
    | some (.num c) => some c
    | _ => none
  | _ => none

/-- Result of handling one successfully decoded message (lines 216-293):
either the loop continues, having sent exactly one response, or the
iteration raised outside the inner try (the `message.get` attribute error
on a non-dict message, lines 216-218) and the exception escapes to the
outer handler, aborting the loop. -/
inductive StepResult where
  | ok (response : Json) (sid : Json) (calls : List AgentCall) : StepResult
  | abort : StepResult

/-- Lines 272-293: the one response sent after dispatching, carrying the
same `msg_id`: the success envelope when the handler returned, the error
envelope when it raised. -/
def respOf (d : DispatchOut) (method msgId : Json) : Json :=
  match d.outcome with
  | .ok r => successResponse r msgId
  | .error e => errorResponse e method msgId

/-- Lines 216-293 for one decoded message `msg`: extract `method`,
`params` (default empty dict) and `id`, dispatch, and build the response
(success or error) carrying the same `msg_id`. A non-dict `msg` raises
`AttributeError` at `message.get` and aborts the loop. -/
def stepMessage (ag : Agent) (wd : String) (sid : Json) (msg : Json) : StepResult :=
  match msg with
  | .obj fs =>
    let method := (lookupField fs "method").getD .null
    let params := (lookupField fs "params").getD (.obj [])
    let msgId := (lookupField fs "id").getD .null
    let d := dispatch ag wd sid method params
    .ok (respOf d method msgId) d.sessionId d.calls
  | _ => .abort

/-- One inbound frame as seen through `read_message` (lines 122-132):
either `receive_text` raises (peer disconnect or transport error), or the
text raises in `json.loads` (decode failure), or it decodes to a value.
Both exception cases are caught by `read_message`, which sets `_closed`
and returns `None`. An exhausted script is treated as a disconnect. -/
inductive RawFrame where
  | disconnect : RawFrame
  | invalid : RawFrame
  | parsed (msg : Json) : RawFrame

/-- An event of the message loop, indexed by the frame position:
`read n` marks `read_message` returning frame `n`; `dispatched n` marks
the handler for message `n` having returned (or raised); `responded n`
marks the response for message `n` having been written; `aborted n` marks
the `AttributeError` for a non-dict message `n` escaping the loop;
`readClosed` marks `read_message` returning `None`, which breaks the
loop. -/
inductive Event where
  | read (n : Nat) : Event
  | dispatched (n : Nat) : Event
  | responded (n : Nat) : Event
  | aborted (n : Nat) : Event
  | readClosed : Event
deriving DecidableEq

/-- The observable outcome of the message loop (lines 210-293): the
responses written (in order), the event trace, the agent invocations made
(in order), the final `session_id` local, and the adapter `_closed` flag
at loop exit (set by `read_message` on disconnect or decode failure;
still false when the loop exits via an escaping exception). -/
structure RunResult where
  sent : List Json
  trace : List Event
  calls : List AgentCall
  sessionId : Json
  adapterClosed : Bool

/-- Lines 210-293: the message loop. `sid` is the `session_id` local,
`n` the index of the next frame. Reading consumes the next raw frame:
a disconnect or decode failure makes `read_message` return `None`
(setting `_closed`), which breaks the loop; a decoded message is handled
by `stepMessage`, its single response written, and the loop continues.
Writes succeed (the transport is assumed reliable while open, as the
spec assumes in section 1). -/
def runLoop (ag : Agent) (wd : String) : Json → Nat → List RawFrame → RunResult
  | sid, _, [] => ⟨[], [.readClosed], [], sid, true⟩
  | sid, _, .disconnect :: _ => ⟨[], [.readClosed], [], sid, true⟩
  | sid, _, .invalid :: _ => ⟨[], [.readClosed], [], sid, true⟩
  | sid, n, .parsed m :: rest =>
    match stepMessage ag wd sid m with
    | .abort => ⟨[], [.read n, .aborted n], [], sid, false⟩
    | .ok resp sid' calls =>
      let r := runLoop ag wd sid' (n + 1) rest
      ⟨resp :: r.sent,
       .read n :: .dispatched n :: .responded n :: r.trace,
       calls ++ r.calls,
       r.sessionId,
       r.adapterClosed⟩

/-- A cleanup action of the `finally` block (lines 297-302). -/
inductive CleanupEvent where
  | removedAgentEntry : CleanupEvent
  | adapterClose : CleanupEvent
deriving DecidableEq

/-- The per-connection state the `finally` block acts on: whether
`conn_id` is still a key of the global `agents` table, the adapter
`_closed` flag, and how many times the underlying `websocket.close()`
has been invoked. -/
structure ConnState where
  agentsEntry : Bool
  adapterClosed : Bool
  wsCloseCalls : Nat

/-- `StarletteWebSocketAdapter.close` (lines 145-152): when `_closed` is
not yet set, invoke the underlying `websocket.close()` (exceptions
swallowed) and set `_closed`; otherwise do nothing. -/
def adapterCloseOp (st : ConnState) : ConnState :=
  if st.adapterClosed then st
  else { st with adapterClosed := true, wsCloseCalls := st.wsCloseCalls + 1 }

/-- The `finally` block (lines 297-302): remove the `agents` entry if
present, then call `ws_adapter.close()`; returns the final state and the
cleanup actions in the order performed. -/
def finallyBlock (st : ConnState) : ConnState × List CleanupEvent :=
  let st1 := { st with agentsEntry := false }
  (adapterCloseOp st1, [.removedAgentEntry, .adapterClose])

/-- The full observable outcome of one `websocket_handler` run from the
point the agent is registered (line 198): the loop outcome, the final
per-connection state, and the cleanup actions. -/
structure HandlerResult where
  loop : RunResult
  final : ConnState
  cleanup : List CleanupEvent

/-- Lines 198-302: register the agent entry, run the message loop (no
path in the loop invokes the underlying `websocket.close()`; only
`_closed` may be set by `read_message`), then run the `finally` block on
every exit path. -/
def runHandler (ag : Agent) (wd : String) (frames : List RawFrame) : HandlerResult :=
  let st0 : ConnState := ⟨true, false, 0⟩
  let r := runLoop ag wd .null 0 frames
  let stLoop : ConnState := { st0 with adapterClosed := r.adapterClosed }
  let (stFin, ev) := finallyBlock stLoop
  ⟨r, stFin, ev⟩

/-- Full state of one `StarletteWebSocketAdapter` over its underlying
Starlette websocket: the script of outcomes the underlying
`receive_text`/`json.loads` will produce (an exhausted script behaves as
a disconnect), the script of `send_text` outcomes (`false` = raises; an
exhausted script succeeds), the `_closed` flag, the messages actually
delivered, and the number of underlying `websocket.close()`
invocations. -/
structure AdapterState where
  recvScript : List RawFrame
  sendScript : List Bool
  closed : Bool
  sentTexts : List Json
  wsCloseCalls : Nat

/-- `read_message` (lines 122-132): `None` immediately when `_closed`;
otherwise consume the next receive outcome — an exception from
`receive_text` or `json.loads` is caught, sets `_closed` and yields
`None`; a decoded value is returned. -/
def wsAdapterRead (st : AdapterState) : AdapterState × Option Json :=
  if st.closed then (st, none)
  else
    match st.recvScript with
    | [] => ({ st with closed := true }, none)
    | .disconnect :: rest => ({ st with recvScript := rest, closed := true }, none)
    | .invalid :: rest => ({ st with recvScript := rest, closed := true }, none)
    | .parsed m :: rest => ({ st with recvScript := rest }, some m)

/-- `write_message` (lines 134-143): return at once when `_closed`;
otherwise attempt `send_text` — an exception is caught and sets
`_closed` (the message is not delivered). -/
def wsAdapterWrite (st : AdapterState) (m : Json) : AdapterState :=
  if st.closed then st
  else
    match st.sendScript with
    | [] => { st with sentTexts := st.sentTexts ++ [m] }
    | ok :: rest =>
      if ok then { st with sendScript := rest, sentTexts := st.sentTexts ++ [m] }
      else { st with sendScript := rest, closed := true }

/-- `close` (lines 145-152): when `_closed` is not yet set, invoke the
underlying `websocket.close()` (its exceptions swallowed by the bare
except) and set `_closed`; otherwise do nothing. -/
def wsAdapterClose (st : AdapterState) : AdapterState :=
  if st.closed then st
  else { st with closed := true, wsCloseCalls := st.wsCloseCalls + 1 }

/-- One adapter invocation, from any caller path. -/
inductive AdapterOp where
  | readOp : AdapterOp
  | writeOp (m : Json) : AdapterOp
  | closeOp : AdapterOp

/-- Run a sequence of adapter invocations. -/
def runAdapterOps : AdapterState → List AdapterOp → AdapterState
  | st, [] => st
  | st, .readOp :: ops => runAdapterOps (wsAdapterRead st).1 ops
  | st, .writeOp m :: ops => runAdapterOps (wsAdapterWrite st m) ops
  | st, .closeOp :: ops => runAdapterOps (wsAdapterClose st) ops

/-- A fresh adapter over given underlying scripts (`__init__`,
lines 118-120). -/
def freshAdapter (recv : List RawFrame) (send : List Bool) : AdapterState :=
  ⟨recv, send, false, [], 0⟩

/-- A concrete well-behaved agent oracle used for concrete executions. -/
def testAgent : Agent where
  onInit := fun _ _ _ => .ok (.respObj (.obj [("protocol_version", .num 1)]))
  onNewSession := fun _ _ =>
    .ok (.newSession (.str "sess-1") (.obj [("session_id", .str "sess-1")]))
  onPrompt := fun _ _ => .ok (.respObj (.obj [("stop_reason", .str "end_turn")]))
  onSetSessionMode := fun _ _ => .ok (.respObj (.obj []))
  onCancel := fun _ => .ok ()

/-- The test agent with an `initialize` handler that raises (an
unsupported protocol version). -/
def failInitAgent : Agent :=
  { testAgent with onInit := fun _ _ _ => .error "Unsupported protocol version" }

/-- The default workspace directory of the module. -/
def testWd : String := "/tmp/workspace"

/-- A concrete `initialize` call, id 1. -/
def initCallMsg : Json :=
  .obj [ ("jsonrpc", .str "2.0"), ("method", .str "initialize")
       , ("params", .obj [("protocol_version", .num 1)]), ("id", .num 1) ]

/-- A concrete `new_session` call, id 2. -/
def newSessionCallMsg : Json :=
  .obj [ ("method", .str "new_session")
       , ("params", .obj [("cwd", .str "/tmp/x")]), ("id", .num 2) ]

/-- A concrete `prompt` call, id 3, with no `session_id` in its params. -/
def promptCallMsg : Json :=
  .obj [ ("method", .str "prompt")
       , ("params", .obj [("prompt", .arr [.str "hi"])]), ("id", .num 3) ]

/-- A concrete `cancel` message with no id (a notification). -/
def cancelNotifMsg : Json :=
  .obj [("method", .str "cancel"), ("params", .obj [])]

/-- A concrete call with an unknown method name, id 7. -/
def unknownCallMsg : Json :=
  .obj [("method", .str "ping"), ("id", .num 7)]

example :
    (runLoop testAgent testWd .null 0 [.parsed promptCallMsg, .parsed cancelNotifMsg]).trace =
      [.read 0, .dispatched 0, .responded 0, .read 1, .dispatched 1, .responded 1,
       .readClosed] := by
  decide

example :
    (runLoop testAgent testWd .null 0 [.parsed cancelNotifMsg]).sent =
      [.obj [("jsonrpc", .str "2.0"), ("result", .obj []), ("id", .null)]] := rfl

example :
    (runLoop testAgent testWd .null 0 [.parsed unknownCallMsg]).sent.map errCodeOf =
      [some (-32603)] := rfl

example :
    (runLoop testAgent testWd .null 0
      [.parsed newSessionCallMsg, .parsed promptCallMsg]).calls =
      [⟨"new_session", .null⟩, ⟨"prompt", .str "sess-1"⟩] := rfl

example : (runLoop testAgent testWd .null 0 [.invalid, .parsed promptCallMsg]).sent = [] := rfl

/-- Modelled from the spec: the spec error taxonomy (sections 4.6, 7 and
8) names a distinguished `MethodNotFound` error code for calls with an
unknown method name; the spec gives no numeral, and the wire format is
JSON-RPC 2.0 (section 6), whose method-not-found code is -32601. The
source never produces this code. -/
def methodNotFoundCode : Int := -32601

/-- The `session_id` value inside a message params as the handler would
read it: `params.get("session_id")` with `params = message.get("params",
dict())`, `Json.null` when absent. Only meaningful when the params are a
dict (otherwise the handler raises before reading it). -/
def sessionParamOf (m : Json) : Json :=
  (jGet ((jGet m "params").getD (.obj [])) "session_id").getD .null

/-- Whether `message.get("params", dict())` is a dict, so that the
`params.get` calls succeed. -/
def paramsAreObj (m : Json) : Bool :=
  ((jGet m "params").getD (.obj [])).isObj

/-- The `method` field of a message as the handler reads it
(`message.get("method")`, line 216). -/
def methodField (m : Json) : Json := (jGet m "method").getD .null

/-- Following the spec words for claim C8: the `session_id` produced by
one message when and only when it is a successful new-session call — the
message is a dict whose method is `new_session`, whose params are a dict,
and the agent returns a `NewSessionResponse`; its `session_id` attribute
is the value. Mirrors lines 231-237. -/
def newSessionSidOfParts (ag : Agent) (wd : String) (method params : Json) :
    Option Json :=
  if isMethod method "new_session" then
    match params with
    | .obj pfs =>
      match ag.onNewSession ((lookupField pfs "cwd").getD (.str wd))
          ((lookupField pfs "mcp_servers").getD (.arr [])) with
      | .ok (.newSession s _) => some s
      | .ok (.raw _) => none
      | .ok (.respObj _) => none
      | .error _ => none
    | _ => none
  else none

/-- The `session_id` a whole message produces when and only when it is a
successful new-session call, reading `method` and `params` the way the
handler does. -/
def newSessionSidOf (ag : Agent) (wd : String) (m : Json) : Option Json :=
  match m with
  | .obj fs =>
    newSessionSidOfParts ag wd ((lookupField fs "method").getD .null)
      ((lookupField fs "params").getD (.obj []))
  | _ => none

/-- Following the spec words for claim C8: the `session_id` of the most
recent successful new-session among the given messages, starting from
`init` (the connection starts with Python `None`). -/
def lastNewSessionSid (ag : Agent) (wd : String) (init : Json) : List Json → Json
  | [] => init
  | m :: rest => lastNewSessionSid ag wd ((newSessionSidOf ag wd m).getD init) rest

example :
    lastNewSessionSid testAgent testWd .null [initCallMsg, newSessionCallMsg] =
      .str "sess-1" := rfl

theorem isMethod_true_iff (method : Json) (name : String) :
    isMethod method name = true ↔ method = .str name := by
  cases method <;> simp [isMethod]

theorem idField_successResponse (r : AgentRet) (i : Json) :
    idField (successResponse r i) = i := rfl

theorem idField_errorResponse (e : String) (method i : Json) :
    idField (errorResponse e method i) = i := rfl

theorem wellFormed_successResponse (r : AgentRet) (i : Json) :
    wellFormedResponse (successResponse r i) = true := rfl

theorem wellFormed_errorResponse (e : String) (method i : Json) :
    wellFormedResponse (errorResponse e method i) = true := rfl

theorem errCodeOf_errorResponse (e : String) (method i : Json) :
    errCodeOf (errorResponse e method i) = some (-32603) := rfl

theorem dispatch_sessionId (ag : Agent) (wd : String) (sid : Json)
    (method params : Json) :
    (dispatch ag wd sid method params).sessionId =
      (newSessionSidOfParts ag wd method params).getD sid := by
  unfold dispatch newSessionSidOfParts
  cases method <;>
    simp only [isMethod] <;>
    split_ifs <;>
    first
      | rfl
      | ((repeat' split) <;> first | rfl | simp_all)

theorem dispatch_newSessionSid (ag : Agent) (wd : String) (sid : Json)
    (fs : List (String × Json)) :
    (dispatch ag wd sid ((lookupField fs "method").getD .null)
        ((lookupField fs "params").getD (.obj []))).sessionId =
      (newSessionSidOf ag wd (.obj fs)).getD sid :=
  dispatch_sessionId ag wd sid _ _

/-- Whether the value is a Python list. -/
def Json.isArr : Json → Bool
  | .arr _ => true
  | _ => false

/-- The `params` of a message as the handler reads them
(`message.get("params", dict())`, line 217). -/
def paramsField (m : Json) : Json := (jGet m "params").getD (.obj [])

/-- The dispatch a whole message triggers, reading its fields the way
lines 216-218 do. -/
def dispatchOf (ag : Agent) (wd : String) (sid : Json) (m : Json) : DispatchOut :=
  dispatch ag wd sid (methodField m) (paramsField m)

/-- A dict entry of a prompt list whose `type` is not `"text"` (the image
or resource content blocks of the claim). -/
def isNonTextDict : Json → Bool
  | .obj fs => !isTextType (lookupField fs "type")
  | _ => false

theorem idField_respOf (d : DispatchOut) (method i : Json) :
    idField (respOf d method i) = i := by
  obtain ⟨o, s, c⟩ := d
  cases o <;> rfl

theorem wellFormed_respOf (d : DispatchOut) (method i : Json) :
    wellFormedResponse (respOf d method i) = true := by
  obtain ⟨o, s, c⟩ := d
  cases o <;> rfl

theorem stepMessage_obj (ag : Agent) (wd : String) (sid : Json)
    (fs : List (String × Json)) :
    stepMessage ag wd sid (.obj fs) =
      .ok (respOf (dispatchOf ag wd sid (.obj fs)) (methodField (.obj fs))
            (idField (.obj fs)))
        (dispatchOf ag wd sid (.obj fs)).sessionId
        (dispatchOf ag wd sid (.obj fs)).calls := rfl

theorem isObj_iff (m : Json) : m.isObj = true ↔ ∃ fs, m = .obj fs := by
  cases m <;> simp [Json.isObj]

theorem runLoop_sent_cons (ag : Agent) (wd : String) (sid : Json) (n : Nat)
    (fs : List (String × Json)) (rest : List RawFrame) :
    (runLoop ag wd sid n (.parsed (.obj fs) :: rest)).sent =
      respOf (dispatchOf ag wd sid (.obj fs)) (methodField (.obj fs))
          (idField (.obj fs)) ::
        (runLoop ag wd (dispatchOf ag wd sid (.obj fs)).sessionId (n + 1) rest).sent := rfl

theorem runLoop_trace_cons (ag : Agent) (wd : String) (sid : Json) (n : Nat)
    (fs : List (String × Json)) (rest : List RawFrame) :
    (runLoop ag wd sid n (.parsed (.obj fs) :: rest)).trace =
      .read n :: .dispatched n :: .responded n ::
        (runLoop ag wd (dispatchOf ag wd sid (.obj fs)).sessionId (n + 1) rest).trace := rfl

theorem runLoop_calls_cons (ag : Agent) (wd : String) (sid : Json) (n : Nat)
    (fs : List (String × Json)) (rest : List RawFrame) :
    (runLoop ag wd sid n (.parsed (.obj fs) :: rest)).calls =
      (dispatchOf ag wd sid (.obj fs)).calls ++
        (runLoop ag wd (dispatchOf ag wd sid (.obj fs)).sessionId (n + 1) rest).calls := rfl

theorem runLoop_sessionId_cons (ag : Agent) (wd : String) (sid : Json) (n : Nat)
    (fs : List (String × Json)) (rest : List RawFrame) :
    (runLoop ag wd sid n (.parsed (.obj fs) :: rest)).sessionId =
      (runLoop ag wd (dispatchOf ag wd sid (.obj fs)).sessionId (n + 1) rest).sessionId := rfl

theorem dispatchOf_sessionId (ag : Agent) (wd : String) (sid : Json)
    (fs : List (String × Json)) :
    (dispatchOf ag wd sid (.obj fs)).sessionId =
      (newSessionSidOf ag wd (.obj fs)).getD sid :=
  dispatch_newSessionSid ag wd sid fs

theorem runLoop_sent_spec (ag : Agent) (wd : String) :
    ∀ (msgs : List Json) (sid : Json) (n : Nat),
      (∀ m ∈ msgs, m.isObj = true) →
      (runLoop ag wd sid n (msgs.map .parsed)).sent.map idField = msgs.map idField ∧
      ∀ r ∈ (runLoop ag wd sid n (msgs.map .parsed)).sent,
        wellFormedResponse r = true := by
  intro msgs
  induction msgs with
  | nil =>
    intro sid n _
    refine ⟨rfl, ?_⟩
    intro r hr
    simp [runLoop] at hr
  | cons m ms ih =>
    intro sid n h
    obtain ⟨fs, rfl⟩ := (isObj_iff m).mp (h m (List.mem_cons_self m ms))
    obtain ⟨ih1, ih2⟩ :=
      ih (dispatchOf ag wd sid (.obj fs)).sessionId (n + 1)
        (fun x hx => h x (List.mem_cons_of_mem _ hx))
    rw [List.map_cons, runLoop_sent_cons]
    refine ⟨?_, ?_⟩
    · rw [List.map_cons, idField_respOf, ih1, List.map_cons]
    · intro r hr
      rcases List.mem_cons.mp hr with h1 | h2
      · rw [h1]; exact wellFormed_respOf _ _ _
      · exact ih2 r h2

theorem runLoop_read_lb (ag : Agent) (wd : String) :
    ∀ (frames : List RawFrame) (sid : Json) (n k : Nat),
      Event.read k ∈ (runLoop ag wd sid n frames).trace → n ≤ k := by
  intro frames
  induction frames with
  | nil => intro sid n k h; simp [runLoop] at h
  | cons f rest ih =>
    intro sid n k h
    cases f with
    | disconnect => simp [runLoop] at h
    | invalid => simp [runLoop] at h
    | parsed m =>
      cases m with
      | obj fs =>
        simp only [runLoop_trace_cons, List.mem_cons] at h
        rcases h with h | h | h | h
        · simp at h; omega
        · simp at h
        · simp at h
        · have hh := ih _ _ _ h; omega
      | null => simp [runLoop, stepMessage] at h; omega
      | bool b => simp [runLoop, stepMessage] at h; omega
      | num x => simp [runLoop, stepMessage] at h; omega
      | str x => simp [runLoop, stepMessage] at h; omega
      | arr xs => simp [runLoop, stepMessage] at h; omega

theorem runLoop_seq_aux (ag : Agent) (wd : String) :
    ∀ (frames : List RawFrame) (sid : Json) (n k : Nat), n ≤ k →
      Event.read (k + 1) ∈ (runLoop ag wd sid n frames).trace →
      [Event.read k, Event.dispatched k, Event.responded k,
        Event.read (k + 1)].Sublist (runLoop ag wd sid n frames).trace := by
  intro frames
  induction frames with
  | nil => intro sid n k _ h; simp [runLoop] at h
  | cons f rest ih =>
    intro sid n k hnk h
    cases f with
    | disconnect => simp [runLoop] at h
    | invalid => simp [runLoop] at h
    | parsed m =>
      cases m with
      | obj fs =>
        simp only [runLoop_trace_cons, List.mem_cons] at h ⊢
        rcases h with h | h | h | h
        · simp at h; omega
        · simp at h
        · simp at h
        · rcases Nat.lt_or_ge n k with hlt | hge
          · have hs := ih _ (n + 1) k hlt h
            exact (hs.cons _).cons _ |>.cons _
          · have hkn : k = n := Nat.le_antisymm hge hnk
            subst hkn
            exact .cons₂ _ (.cons₂ _ (.cons₂ _ (List.singleton_sublist.mpr h)))
      | null => simp [runLoop, stepMessage] at h; omega
      | bool b => simp [runLoop, stepMessage] at h; omega
      | num x => simp [runLoop, stepMessage] at h; omega
      | str x => simp [runLoop, stepMessage] at h; omega
      | arr xs => simp [runLoop, stepMessage] at h; omega

/-- Invariant of the adapter state: the underlying `websocket.close()`
has been invoked at most once, and not at all while `_closed` is still
false. -/
def AdapterInv (st : AdapterState) : Prop :=
  st.wsCloseCalls ≤ 1 ∧ (st.closed = false → st.wsCloseCalls = 0)

theorem adapterInv_read (st : AdapterState) (h : AdapterInv st) :
    AdapterInv (wsAdapterRead st).1 := by
  obtain ⟨h1, h2⟩ := h
  unfold wsAdapterRead
  split_ifs with hc
  · exact ⟨h1, h2⟩
  · cases st.recvScript with
    | nil => exact ⟨h1, fun hh => by simp at hh⟩
    | cons fr rest =>
      cases fr with
      | disconnect => exact ⟨h1, fun hh => by simp at hh⟩
      | invalid => exact ⟨h1, fun hh => by simp at hh⟩
      | parsed m => exact ⟨h1, h2⟩

theorem adapterInv_write (st : AdapterState) (m : Json) (h : AdapterInv st) :
    AdapterInv (wsAdapterWrite st m) := by
  obtain ⟨h1, h2⟩ := h
  unfold wsAdapterWrite
  split_ifs with hc
  · exact ⟨h1, h2⟩
  · cases st.sendScript with
    | nil => exact ⟨h1, h2⟩
    | cons ok rest =>
      cases ok with
      | true => simp only [if_true]; exact ⟨h1, h2⟩
      | false => simp only [Bool.false_eq_true, if_false]; exact ⟨h1, fun hh => by simp at hh⟩

theorem adapterInv_close (st : AdapterState) (h : AdapterInv st) :
    AdapterInv (wsAdapterClose st) := by
  obtain ⟨h1, h2⟩ := h
  unfold wsAdapterClose
  split_ifs with hc
  · exact ⟨h1, h2⟩
  · have h0 := h2 (by simpa using hc)
    exact ⟨by simp [h0], fun hh => by simp at hh⟩

theorem runAdapterOps_inv (ops : List AdapterOp) :
    ∀ st : AdapterState, AdapterInv st → AdapterInv (runAdapterOps st ops) := by
  induction ops with
  | nil => intro st h; exact h
  | cons op ops ih =>
    intro st h
    cases op with
    | readOp => exact ih _ (adapterInv_read st h)
    | writeOp m => exact ih _ (adapterInv_write st m h)
    | closeOp => exact ih _ (adapterInv_close st h)

/-- Claim C2, corrected. The claim asserts a frame that fails to decode
is dropped with the connection continuing; in the code `read_message`
catches the `json.loads` exception, sets `_closed` and returns `None`, so
the loop breaks at once: no message is processed, no response is sent, no
handler runs, the `session_id` is untouched, the adapter ends closed, and
the `finally` cleanup tears the connection down (its `agents` entry is
removed). This theorem states that behaviour for a decode failure at any
loop position and any prior state. -/
theorem c2_decode_failure_closes (ag : Agent) (wd : String) (sid : Json) (n : Nat)
    (rest : List RawFrame) :
    runLoop ag wd sid n (.invalid :: rest) = ⟨[], [.readClosed], [], sid, true⟩ ∧
    (runHandler ag wd (.invalid :: rest)).final.agentsEntry = false ∧
    (runHandler ag wd (.invalid :: rest)).final.adapterClosed = true := by
  exact ⟨rfl, rfl, rfl⟩

/-- Claim C2 counterexample: on the concrete inbound sequence [one frame
of invalid JSON, then a well-formed prompt call], the failing frame is
not merely dropped: no response is ever sent, the later call is never
even read (no `read 1` event), and the adapter ends closed — the decode
failure is treated exactly like a transport-level close, refuting the
claim as stated. -/
theorem c2_counterexample :
    (runLoop testAgent testWd .null 0 [.invalid, .parsed promptCallMsg]).sent = [] ∧
    Event.read 1 ∉ (runLoop testAgent testWd .null 0 [.invalid, .parsed promptCallMsg]).trace ∧
    (runLoop testAgent testWd .null 0 [.invalid, .parsed promptCallMsg]).adapterClosed
      = true := by
  refine ⟨rfl, ?_, rfl⟩
  decide

/-- Claim C4, corrected. The claim asserts a message with a method and no
id gets no response; in the code `msg_id = message.get("id")` is `None`
and a response is sent unconditionally after dispatch, so a notification
receives exactly one response whose id field is null (whether the handler
succeeded or raised, so a handler failure is surfaced to the peer too). -/
theorem c4_notification_gets_null_id_response (ag : Agent) (wd : String)
    (sid : Json) (n : Nat) (fs : List (String × Json)) (rest : List RawFrame)
    (hid : (lookupField fs "id").getD .null = .null) :
    ∃ resp tailSent,
      (runLoop ag wd sid n (.parsed (.obj fs) :: rest)).sent = resp :: tailSent ∧
      idField resp = .null ∧ wellFormedResponse resp = true := by
  refine ⟨_, _, runLoop_sent_cons ag wd sid n fs rest, ?_, wellFormed_respOf _ _ _⟩
  rw [idField_respOf]
  exact hid

/-- Claim C4 witness: the amended theorem applied to the concrete cancel
notification. -/
theorem c4_witness :
    ∃ resp tailSent,
      (runLoop testAgent testWd .null 0
          [.parsed (.obj [("method", .str "cancel"), ("params", .obj [])])]).sent =
        resp :: tailSent ∧
      idField resp = .null ∧ wellFormedResponse resp = true :=
  c4_notification_gets_null_id_response testAgent testWd .null 0
    [("method", .str "cancel"), ("params", .obj [])] [] rfl

/-- Claim C4 counterexample: the concrete cancel notification (a method,
no id) receives a response — the sent list has length one and its single
element carries id null — refuting the claim that no response is
constructed or sent for a notification. -/
theorem c4_counterexample :
    (runLoop testAgent testWd .null 0 [.parsed cancelNotifMsg]).sent.length = 1 ∧
    (runLoop testAgent testWd .null 0 [.parsed cancelNotifMsg]).sent.map idField =
      [.null] := ⟨rfl, rfl⟩

/-- Claim C7, confirmed. The adapter close operation is idempotent: over
any sequence of adapter invocations from any paths and any underlying
outcome scripts, the underlying `websocket.close()` is invoked at most
once; and once `_closed` holds, `read_message` returns the closed
indicator without touching the state, `write_message` returns without
sending, and `close` does nothing — none of them blocks or throws. -/
theorem c7_close_idempotent :
    (∀ (recv : List RawFrame) (send : List Bool) (ops : List AdapterOp),
      (runAdapterOps (freshAdapter recv send) ops).wsCloseCalls ≤ 1) ∧
    (∀ (st : AdapterState) (m : Json), st.closed = true →
      wsAdapterRead st = (st, none) ∧ wsAdapterWrite st m = st ∧
        wsAdapterClose st = st) := by
  constructor
  · intro recv send ops
    exact (runAdapterOps_inv ops _ ⟨by simp [freshAdapter], fun _ => rfl⟩).1
  · intro st m hc
    refine ⟨?_, ?_, ?_⟩ <;>
      simp [wsAdapterRead, wsAdapterWrite, wsAdapterClose, hc]

/-- Claim C7 witness: the post-close clauses of the theorem applied to a
concrete closed adapter state. -/
theorem c7_witness :
    wsAdapterRead ⟨[], [], true, [], 1⟩ = (⟨[], [], true, [], 1⟩, none) ∧
    wsAdapterWrite ⟨[], [], true, [], 1⟩ (.num 0) = ⟨[], [], true, [], 1⟩ ∧
    wsAdapterClose ⟨[], [], true, [], 1⟩ = ⟨[], [], true, [], 1⟩ :=
  c7_close_idempotent.2 ⟨[], [], true, [], 1⟩ (.num 0) rfl

/-- Claim C9, confirmed. On every teardown path of the handler (the loop
ends by peer disconnect, decode failure, exhausted input, or an exception
escaping the loop), the `finally` block removes the per-connection
`agents` entry and then invokes the adapter close exactly once (the
cleanup actions are exactly [entry removal, adapter close], in that
order), and the underlying `websocket.close()` is invoked at most once
over the whole run. -/
theorem c9_teardown_cleanup (ag : Agent) (wd : String) (frames : List RawFrame) :
    (runHandler ag wd frames).final.agentsEntry = false ∧
    (runHandler ag wd frames).cleanup = [.removedAgentEntry, .adapterClose] ∧
    (runHandler ag wd frames).cleanup.count .adapterClose = 1 ∧
    (runHandler ag wd frames).final.wsCloseCalls ≤ 1 := by
  unfold runHandler finallyBlock adapterCloseOp
  cases h : (runLoop ag wd .null 0 frames).adapterClosed <;> simp [h]

/-- The id field read through `List.getD` commutes with mapping
`idField`, since `idField Json.null = Json.null`. -/
theorem map_idField_getD (xs : List Json) :
    ∀ k : Nat, (xs.map idField).getD k .null = idField (xs.getD k .null) := by
  induction xs with
  | nil => intro k; cases k <;> rfl
  | cons x xs ih =>
    intro k
    cases k with
    | zero => rfl
    | succ k => simpa [List.getD] using ih k

/-- Claim C5, confirmed. For a run over decoded dict messages — calls
with ids and notifications freely mixed — the responses sent are in
one-to-one positional correspondence with the inbound messages: their id
fields agree pointwise (so every call that carried an id gets a response
with that same id and never silence), every response is well-formed
(exactly one of result or error), the lengths agree; and under the data
model invariant that two distinct inbound messages never carry the same
non-null id (the originator never reuses a call identifier; notifications
are unconstrained), a non-null id appears on at most one response, so no
caller ever receives two responses for the same id. -/
theorem c5_exactly_one_response (ag : Agent) (wd : String) (msgs : List Json)
    (hobj : ∀ m ∈ msgs, m.isObj = true) :
    (runLoop ag wd .null 0 (msgs.map .parsed)).sent.map idField =
      msgs.map idField ∧
    (∀ r ∈ (runLoop ag wd .null 0 (msgs.map .parsed)).sent,
      wellFormedResponse r = true) ∧
    (runLoop ag wd .null 0 (msgs.map .parsed)).sent.length = msgs.length ∧
    ((∀ i j : Nat, i < msgs.length → j < msgs.length →
        idField (msgs.getD i .null) ≠ .null →
        idField (msgs.getD i .null) = idField (msgs.getD j .null) → i = j) →
      ∀ i j : Nat,
        i < (runLoop ag wd .null 0 (msgs.map .parsed)).sent.length →
        j < (runLoop ag wd .null 0 (msgs.map .parsed)).sent.length →
        idField ((runLoop ag wd .null 0 (msgs.map .parsed)).sent.getD i .null) ≠
          .null →
        idField ((runLoop ag wd .null 0 (msgs.map .parsed)).sent.getD i .null) =
          idField ((runLoop ag wd .null 0 (msgs.map .parsed)).sent.getD j .null) →
        i = j) := by
  obtain ⟨h1, h2⟩ := runLoop_sent_spec ag wd msgs .null 0 hobj
  have hlen : (runLoop ag wd .null 0 (msgs.map .parsed)).sent.length =
      msgs.length := by
    have hl := congrArg List.length h1
    simpa using hl
  refine ⟨h1, h2, hlen, ?_⟩
  intro hdist i j hi hj hnn heq
  have key : ∀ k : Nat,
      idField ((runLoop ag wd .null 0 (msgs.map .parsed)).sent.getD k .null) =
        idField (msgs.getD k .null) := by
    intro k
    rw [← map_idField_getD, h1, map_idField_getD]
  rw [key i, key j] at heq
  rw [key i] at hnn
  exact hdist i j (hlen ▸ hi) (hlen ▸ hj) hnn heq

/-- Claim C5 witness: the theorem applied to the concrete four-message
run [initialize call (id 1), cancel notification, new_session call
(id 2), a second cancel notification] — a run mixing id-carrying calls
with repeated notifications: every message gets exactly one response,
the two calls get theirs under their own ids. -/
theorem c5_witness :
    (runLoop testAgent testWd .null 0
        ([initCallMsg, cancelNotifMsg, newSessionCallMsg, cancelNotifMsg].map
          .parsed)).sent.map idField = [.num 1, .null, .num 2, .null] ∧
    (runLoop testAgent testWd .null 0
        ([initCallMsg, cancelNotifMsg, newSessionCallMsg, cancelNotifMsg].map
          .parsed)).sent.length = 4 :=
  ⟨(c5_exactly_one_response testAgent testWd
      [initCallMsg, cancelNotifMsg, newSessionCallMsg, cancelNotifMsg]
      (by decide)).1,
   (c5_exactly_one_response testAgent testWd
      [initCallMsg, cancelNotifMsg, newSessionCallMsg, cancelNotifMsg]
      (by decide)).2.2.1⟩

/-- Claim C10, confirmed. The prompt params are normalized before the
agent is invoked: a non-list prompt value is wrapped as one text block of
its string form; a plain string entry becomes a text block; a dict entry
with type "text" becomes a text block carrying its "text" value (empty
string when absent); a dict entry whose type is not "text" is silently
dropped; everything the agent receives is a text content block; and a
prompt consisting solely of non-text dict blocks reaches the agent as the
empty list. -/
theorem c10_prompt_normalization :
    (∀ j : Json, j.isArr = false → promptBlocks j = [mkTextBlock (.str (pyStr j))]) ∧
    (∀ s : String, blockOf (.str s) = some (mkTextBlock (.str s))) ∧
    (∀ fs : List (String × Json), lookupField fs "type" = some (.str "text") →
      blockOf (.obj fs) =
        some (mkTextBlock ((lookupField fs "text").getD (.str "")))) ∧
    (∀ x : Json, isNonTextDict x = true → blockOf x = none) ∧
    (∀ j b : Json, b ∈ promptBlocks j → ∃ t, b = mkTextBlock t) ∧
    (∀ xs : List Json, (∀ x ∈ xs, isNonTextDict x = true) →
      promptBlocks (.arr xs) = []) := by
  have hshape : ∀ x b : Json, blockOf x = some b → ∃ t, b = mkTextBlock t := by
    intro x b h
    cases x with
    | obj fs =>
      by_cases ht : isTextType (lookupField fs "type") = true
      · simp only [blockOf, ht, if_true, Option.some.injEq] at h
        exact ⟨_, h.symm⟩
      · simp [blockOf, ht] at h
    | str s =>
      simp only [blockOf, Option.some.injEq] at h
      exact ⟨_, h.symm⟩
    | null => simp [blockOf] at h
    | bool b2 => simp [blockOf] at h
    | num n2 => simp [blockOf] at h
    | arr xs2 => simp [blockOf] at h
  have hdrop : ∀ x : Json, isNonTextDict x = true → blockOf x = none := by
    intro x h
    cases x <;> simp_all [isNonTextDict, blockOf]
  refine ⟨?_, fun _ => rfl, ?_, hdrop, ?_, ?_⟩
  · intro j hj
    cases j <;> first | rfl | simp [Json.isArr] at hj
  · intro fs h
    simp [blockOf, h, isTextType]
  · intro j b hb
    unfold promptBlocks at hb
    obtain ⟨x, _, hx⟩ := List.mem_filterMap.mp hb
    exact hshape x b hx
  · intro xs h
    unfold promptBlocks
    exact List.filterMap_eq_nil_iff.mpr (fun x hx => hdrop x (h x hx))

/-- Claim C10 witness: the theorem applied at concrete inputs — the
non-list prompt value 5 is wrapped as one text block of its string form,
and a prompt consisting solely of an image block reaches the agent as the
empty list. -/
theorem c10_witness :
    promptBlocks (.num 5) = [mkTextBlock (.str "5")] ∧
    promptBlocks (.arr [.obj [("type", .str "image"), ("data", .str "x")]]) = [] :=
  ⟨c10_prompt_normalization.1 (.num 5) rfl,
   c10_prompt_normalization.2.2.2.2.2
     [.obj [("type", .str "image"), ("data", .str "x")]] (by decide)⟩

/-- Claim C3, corrected. The claim asserts an unknown method yields a
`MethodNotFound` error code; in the code an unknown method raises
`ValueError` and the generic exception handler answers with the fixed
code -32603 and message `Unknown method: <name>` — and the loop then
continues processing the remaining frames with its state unchanged, so
the connection does remain usable. -/
theorem c3_unknown_method_internal_error (ag : Agent) (wd : String) (sid : Json)
    (n : Nat) (fs : List (String × Json)) (rest : List RawFrame) (name : String)
    (hmethod : lookupField fs "method" = some (.str name))
    (hname : name ∉ ["initialize", "new_session", "prompt", "set_session_mode",
      "cancel"]) :
    (runLoop ag wd sid n (.parsed (.obj fs) :: rest)).sent =
      errorResponse ("Unknown method: " ++ name) (.str name) (idField (.obj fs)) ::
        (runLoop ag wd sid (n + 1) rest).sent ∧
    errCodeOf (errorResponse ("Unknown method: " ++ name) (.str name)
      (idField (.obj fs))) = some (-32603) ∧
    (runLoop ag wd sid n (.parsed (.obj fs) :: rest)).trace =
      .read n :: .dispatched n :: .responded n ::
        (runLoop ag wd sid (n + 1) rest).trace ∧
    (runLoop ag wd sid n (.parsed (.obj fs) :: rest)).sessionId =
      (runLoop ag wd sid (n + 1) rest).sessionId := by
  simp only [List.mem_cons, List.not_mem_nil, or_false, not_or] at hname
  obtain ⟨h1, h2, h3, h4, h5⟩ := hname
  have hm : methodField (Json.obj fs) = .str name := by
    simp [methodField, jGet, hmethod]
  have hd : dispatchOf ag wd sid (.obj fs) =
      ⟨.error ("Unknown method: " ++ name), sid, []⟩ := by
    unfold dispatchOf dispatch
    rw [hm]
    simp [isMethod, h1, h2, h3, h4, h5, pyStr]
  refine ⟨?_, rfl, ?_, ?_⟩
  · rw [runLoop_sent_cons, hd, hm]; rfl
  · rw [runLoop_trace_cons, hd]
  · rw [runLoop_sessionId_cons, hd]

/-- Claim C3 witness: the amended theorem applied to the concrete call
with unknown method name `ping`. -/
theorem c3_witness :
    (runLoop testAgent testWd .null 0 [.parsed (.obj [("method", .str "ping"),
        ("id", .num 7)])]).sent =
      errorResponse ("Unknown method: " ++ "ping") (.str "ping")
          (idField (.obj [("method", .str "ping"), ("id", .num 7)])) ::
        (runLoop testAgent testWd .null 1 []).sent :=
  (c3_unknown_method_internal_error testAgent testWd .null 0
    [("method", .str "ping"), ("id", .num 7)] [] "ping" rfl (by decide)).1

/-- Claim C3 counterexample: the concrete unknown-method call (method
`ping`, id 7) is answered with error code -32603, which is not the
JSON-RPC `MethodNotFound` code -32601 — and it is the very same code a
generic handler failure produces (here a failing initialize), so unknown
methods are not distinguished by a `MethodNotFound` code, refuting the
claim as stated. -/
theorem c3_counterexample :
    (runLoop testAgent testWd .null 0 [.parsed unknownCallMsg]).sent.map errCodeOf =
      [some (-32603)] ∧
    ¬((-32603 : Int) = methodNotFoundCode) ∧
    (runLoop failInitAgent testWd .null 0 [.parsed initCallMsg]).sent.map errCodeOf =
      [some (-32603)] ∧
    (runLoop testAgent testWd .null 0
      [.parsed unknownCallMsg, .parsed initCallMsg]).sent.length = 2 := by
  refine ⟨rfl, by decide, rfl, rfl⟩

/-- Claim C6, corrected. The claim asserts a failed initialize forces the
connection into Closing; in the code the exception handler sends the
error response and the loop simply continues: the remaining frames are
processed exactly as they would be on a fresh continuation with the same
state, so further calls are still accepted after a failed initialize. -/
theorem c6_failed_init_continues (ag : Agent) (wd : String) (sid : Json) (n : Nat)
    (fs pfs : List (String × Json)) (rest : List RawFrame) (e : String)
    (hmethod : lookupField fs "method" = some (.str "initialize"))
    (hparams : (lookupField fs "params").getD (.obj []) = .obj pfs)
    (hfail : ag.onInit ((lookupField pfs "protocol_version").getD (.num 1))
        ((lookupField pfs "client_capabilities").getD .null)
        ((lookupField pfs "client_info").getD .null) = .error e) :
    (runLoop ag wd sid n (.parsed (.obj fs) :: rest)).sent =
      errorResponse e (.str "initialize") (idField (.obj fs)) ::
        (runLoop ag wd sid (n + 1) rest).sent ∧
    (runLoop ag wd sid n (.parsed (.obj fs) :: rest)).trace =
      .read n :: .dispatched n :: .responded n ::
        (runLoop ag wd sid (n + 1) rest).trace ∧
    (runLoop ag wd sid n (.parsed (.obj fs) :: rest)).sessionId =
      (runLoop ag wd sid (n + 1) rest).sessionId := by
  have hm : methodField (Json.obj fs) = .str "initialize" := by
    simp [methodField, jGet, hmethod]
  have hd : dispatchOf ag wd sid (.obj fs) =
      ⟨.error e, sid, [⟨"initialize", .null⟩]⟩ := by
    unfold dispatchOf dispatch
    rw [hm]
    simp only [paramsField, jGet]
    rw [hparams]
    simp [isMethod, hfail]
  refine ⟨?_, ?_, ?_⟩
  · rw [runLoop_sent_cons, hd, hm]; rfl
  · rw [runLoop_trace_cons, hd]
  · rw [runLoop_sessionId_cons, hd]

/-- Claim C6 witness: the amended theorem applied to a concrete failing
initialize followed by a prompt call. -/
theorem c6_witness :
    (runLoop failInitAgent testWd .null 0
        [.parsed (.obj [ ("jsonrpc", .str "2.0"), ("method", .str "initialize")
                       , ("params", .obj [("protocol_version", .num 1)])
                       , ("id", .num 1)]),
         .parsed promptCallMsg]).sent =
      errorResponse "Unsupported protocol version" (.str "initialize")
          (idField (.obj [ ("jsonrpc", .str "2.0"), ("method", .str "initialize")
                         , ("params", .obj [("protocol_version", .num 1)])
                         , ("id", .num 1)])) ::
        (runLoop failInitAgent testWd .null 1 [.parsed promptCallMsg]).sent :=
  (c6_failed_init_continues failInitAgent testWd .null 0
    [ ("jsonrpc", .str "2.0"), ("method", .str "initialize")
    , ("params", .obj [("protocol_version", .num 1)]), ("id", .num 1)]
    [("protocol_version", .num 1)] [.parsed promptCallMsg]
    "Unsupported protocol version" rfl rfl rfl).1

/-- Claim C6 counterexample: on the concrete run [initialize whose
handler raises, then a well-formed prompt call], the bridge answers the
failed initialize with an error (code -32603) and then still dispatches
the subsequent prompt call to the agent and answers it successfully —
refuting the claim that no further calls are accepted after a failed
initialize. -/
theorem c6_counterexample :
    (runLoop failInitAgent testWd .null 0
      [.parsed initCallMsg, .parsed promptCallMsg]).sent.map errCodeOf =
      [some (-32603), none] ∧
    (runLoop failInitAgent testWd .null 0
      [.parsed initCallMsg, .parsed promptCallMsg]).calls =
      [⟨"initialize", .null⟩, ⟨"prompt", .null⟩] ∧
    (∀ r ∈ (runLoop failInitAgent testWd .null 0
      [.parsed initCallMsg, .parsed promptCallMsg]).sent,
        wellFormedResponse r = true) := by
  refine ⟨rfl, rfl, ?_⟩
  intro r hr
  have hs : (runLoop failInitAgent testWd .null 0
      [.parsed initCallMsg, .parsed promptCallMsg]).sent =
      [ errorResponse "Unsupported protocol version" (.str "initialize") (.num 1)
      , successResponse (.respObj (.obj [("stop_reason", .str "end_turn")]))
          (.num 3)] := rfl
  rw [hs] at hr
  rcases List.mem_cons.mp hr with h | h
  · rw [h]; rfl
  · rcases List.mem_cons.mp h with h2 | h2
    · rw [h2]; rfl
    · simp at h2

/-- Claim C1, corrected. The claim asserts dispatching a handler never
blocks the reading and handling of later inbound messages; in the code
the loop is strictly sequential, and this theorem states the amended
behaviour: whenever message k+1 is read at all, the events
[read k, dispatched k, responded k, read (k+1)] occur in this order in
the trace — message k is fully handled and answered before message k+1
is even read, so a concurrently arriving cancel can never be processed
while a prompt is in flight. -/
theorem c1_sequential_processing (ag : Agent) (wd : String)
    (frames : List RawFrame) (k : Nat)
    (h : Event.read (k + 1) ∈ (runLoop ag wd .null 0 frames).trace) :
    [Event.read k, Event.dispatched k, Event.responded k,
      Event.read (k + 1)].Sublist (runLoop ag wd .null 0 frames).trace :=
  runLoop_seq_aux ag wd frames .null 0 k (Nat.zero_le k) h

/-- Claim C1 witness: the amended theorem applied at the concrete run
[prompt call, cancel notification]. -/
theorem c1_witness :
    [Event.read 0, Event.dispatched 0, Event.responded 0, Event.read 1].Sublist
      (runLoop testAgent testWd .null 0
        [.parsed promptCallMsg, .parsed cancelNotifMsg]).trace :=
  c1_sequential_processing testAgent testWd
    [.parsed promptCallMsg, .parsed cancelNotifMsg] 0 (by decide)

/-- Claim C1 counterexample: in the concrete run [prompt call (id 3),
cancel notification arriving right after], the trace is exactly
sequential: the cancel is read at trace position 3, strictly after the
response to the prompt at position 2 — the cancel cannot be read,
dispatched, or answered while the prompt is in flight, refuting the
claim that dispatch never blocks the processing of subsequent inbound
messages. -/
theorem c1_counterexample :
    (runLoop testAgent testWd .null 0
        [.parsed promptCallMsg, .parsed cancelNotifMsg]).trace =
      [.read 0, .dispatched 0, .responded 0, .read 1, .dispatched 1,
       .responded 1, .readClosed] ∧
    (runLoop testAgent testWd .null 0
        [.parsed promptCallMsg, .parsed cancelNotifMsg]).trace.indexOf
      (.read 1) = 3 ∧
    (runLoop testAgent testWd .null 0
        [.parsed promptCallMsg, .parsed cancelNotifMsg]).trace.indexOf
      (.responded 0) = 2 := by
  refine ⟨by decide, by decide, by decide⟩

/-- Claim C8, confirmed. After processing any prefix of dict messages,
the `session_id` local equals the session id of the most recent
successful new-session in that prefix (starting from null); hence a
subsequent prompt, set-session-mode, or cancel call whose params omit
`session_id` (or carry it null or empty, i.e. falsy) invokes the agent
with exactly that most recent session id. -/
theorem c8_default_session_target (ag : Agent) (wd : String) (pre : List Json)
    (fs pfs : List (String × Json)) (name : String)
    (hpre : ∀ x ∈ pre, x.isObj = true)
    (hname : name = "prompt" ∨ name = "set_session_mode" ∨ name = "cancel")
    (hmethod : lookupField fs "method" = some (.str name))
    (hparams : (lookupField fs "params").getD (.obj []) = .obj pfs)
    (hsid : truthy ((lookupField pfs "session_id").getD .null) = false) :
    (runLoop ag wd .null 0 (pre.map .parsed ++ [.parsed (.obj fs)])).calls.getLast? =
      some ⟨name, lastNewSessionSid ag wd .null pre⟩ := by
  have hm : methodField (Json.obj fs) = .str name := by
    simp [methodField, jGet, hmethod]
  have hor : ∀ sid : Json,
      pyOr ((lookupField pfs "session_id").getD .null) sid = sid := by
    intro sid; simp [pyOr, hsid]
  suffices h : ∀ (ms : List Json) (sid : Json) (n : Nat),
      (∀ x ∈ ms, x.isObj = true) →
      (runLoop ag wd sid n (ms.map .parsed ++ [.parsed (.obj fs)])).calls.getLast? =
        some ⟨name, lastNewSessionSid ag wd sid ms⟩ by
    exact h pre .null 0 hpre
  intro ms
  induction ms with
  | nil =>
    intro sid n _
    rw [List.map_nil, List.nil_append, runLoop_calls_cons]
    have htail : (runLoop ag wd (dispatchOf ag wd sid (.obj fs)).sessionId
        (n + 1) []).calls = [] := rfl
    rw [htail, List.append_nil]
    have hcalls : (dispatchOf ag wd sid (.obj fs)).calls =
        [⟨name, sid⟩] := by
      unfold dispatchOf dispatch
      rw [hm]
      simp only [paramsField, jGet]
      rw [hparams]
      rcases hname with h | h | h <;> subst h <;>
        (simp [isMethod, hor]; try (split <;> rfl))
    rw [hcalls]
    simp [lastNewSessionSid]
  | cons x ms ih =>
    intro sid n hx
    obtain ⟨gfs, rfl⟩ := (isObj_iff x).mp (hx x (List.mem_cons_self x ms))
    rw [List.map_cons, List.cons_append, runLoop_calls_cons]
    have htail := ih (dispatchOf ag wd sid (.obj gfs)).sessionId (n + 1)
      (fun y hy => hx y (List.mem_cons_of_mem _ hy))
    have hne : (runLoop ag wd (dispatchOf ag wd sid (.obj gfs)).sessionId (n + 1)
        (ms.map .parsed ++ [.parsed (.obj fs)])).calls ≠ [] := by
      intro hnil
      rw [hnil] at htail
      simp at htail
    rw [List.getLast?_append_of_ne_nil _ hne, htail, dispatchOf_sessionId]
    rfl

/-- Claim C8 witness: the theorem applied to the concrete run
[initialize, new_session] followed by a prompt call with no session_id:
the agent is invoked with the session id sess-1 returned by the
new-session call. -/
theorem c8_witness :
    (runLoop testAgent testWd .null 0
        ([initCallMsg, newSessionCallMsg].map .parsed ++
          [.parsed (.obj [ ("method", .str "prompt")
                         , ("params", .obj [("prompt", .arr [.str "hi"])])
                         , ("id", .num 3)])])).calls.getLast? =
      some ⟨"prompt", .str "sess-1"⟩ :=
  c8_default_session_target testAgent testWd [initCallMsg, newSessionCallMsg]
    [ ("method", .str "prompt"), ("params", .obj [("prompt", .arr [.str "hi"])])
    , ("id", .num 3)]
    [("prompt", .arr [.str "hi"])] "prompt" (by decide) (Or.inl rfl) rfl rfl rfl
